import Mathlib

/-!
# Verification of the authentication core of the CMS backend

A shallow embedding of the authentication and authorization subsystem of
`src/main.py` (helpers `verify_password`, `get_password_hash`,
`create_access_token`, the dependency `get_current_admin`, and the two
routes `register_admin` and `login`), together with the identity record
model `AdminUser` from `src/schemas.py`.

Modelling conventions:
* time is a `Nat` counted in minutes (the token lifetime constant of the code
  is in minutes);
* the MongoDB collection `db["adminuser"]` is a list of stored documents,
  wrapped in a `Store` that also carries a flag saying whether the
  update operation of the backing store errors (to model I/O failure of `update_one`);
* fallible Python code is embedded as `Except`: an `HTTPException` raised
  by the handler is `.http`, and an exception escaping the handler
  uncaught (the `UnknownHashError` of passlib, the `ValidationError` of pydantic,
  a store failure) is its own constructor;
* the two external libraries traversed by the code are modelled by their
  documented behaviour: `CryptContext.verify` of passlib returns a `Bool`
  on an identifiable hash and raises `UnknownHashError` on an
  unidentifiable one (such as the empty string); the python-jose
  `jwt.encode`/`jwt.decode` sign a payload with the secret and fail
  closed on parse failure, signature mismatch, or expiry.
-/

instance {ε α : Type} [DecidableEq ε] [DecidableEq α] : DecidableEq (Except ε α) :=
  fun x y =>
    match x, y with
    | .ok a, .ok b =>
      if h : a = b then .isTrue (by rw [h]) else .isFalse (by simp [h])
    | .error a, .error b =>
      if h : a = b then .isTrue (by rw [h]) else .isFalse (by simp [h])
    | .ok _, .error _ => .isFalse (by simp)
    | .error _, .ok _ => .isFalse (by simp)

namespace CMSAuth

/-- `src/main.py` line 19: `ACCESS_TOKEN_EXPIRE_MINUTES = 60 * 8`. -/
def ACCESS_TOKEN_EXPIRE_MINUTES : Nat := 60 * 8

/-- The identity record `AdminUser` of `src/schemas.py` (defaults:
`role = "admin"`, `name = None`, `last_login = None`, `is_active = True`).
`password_hash` is a required field of the pydantic model. -/
structure AdminUser where
  email : String
  password_hash : String
  role : String
  name : Option String
  last_login : Option Nat
  is_active : Bool
deriving DecidableEq, Repr

/-- A document of the `adminuser` MongoDB collection. Documents are
free-form, so the `password_hash` field may be absent (`none`); the login
code anticipates this with `user.get("password_hash", "")`. The `_id`
key every document carries is not modelled because no claim depends on
its value — `get_current_admin` drops it before validation. -/
structure StoredDoc where
  email : String
  password_hash : Option String
  role : String
  name : Option String
  last_login : Option Nat
  is_active : Bool
deriving DecidableEq, Repr

/-- The `adminuser` collection, plus a flag modelling whether the
`update_one` call of the backing store errors (I/O failure of the document store). -/
structure Store where
  docs : List StoredDoc
  update_fails : Bool
deriving DecidableEq, Repr

/-- `db["adminuser"].find_one({"email": email})`: the first document of
the collection whose `email` field equals the key, or `None`. -/
def find_one (docs : List StoredDoc) (email : String) : Option StoredDoc :=
  docs.find? fun d => d.email == email

/-- `db["adminuser"].update_one({"email": email}, {"$set": {"last_login": t}})`
applied to the document list: sets `last_login` on the first matching
document only. -/
def set_last_login (docs : List StoredDoc) (email : String) (t : Nat) : List StoredDoc :=
  match docs with
  | [] => []
  | d :: rest =>
    if d.email == email then { d with last_login := some t } :: rest
    else d :: set_last_login rest email t

/-- The update of the store adapter: errors when the backing store fails,
otherwise updates the first matching document. -/
def update_one (store : Store) (email : String) (t : Nat) : Except String Store :=
  if store.update_fails then .error "store update failed"
  else .ok { store with docs := set_last_login store.docs email t }

/-- Modelled from the documented behaviour of the passlib bcrypt backend:
hashing produces a string in the identifiable `$2b$` modular-crypt
format. The salt/work-factor internals are abstracted; what the claims
need is that the output is identifiable and verifies against its input. -/
def bcryptHash (password : String) : String :=
  "$2b$12$" ++ password

/-- The error passlib raises when a hash string cannot be identified
(`passlib.exc.UnknownHashError`, a `ValueError`). -/
inductive HashError where
  | unknownHash
deriving DecidableEq, Repr

/-- Modelled from the documented behaviour of the passlib
`CryptContext.verify`: on a hash in an identifiable format (here: one
opening with the bcrypt `$2b$` modular-crypt tag) it returns a boolean;
on an unidentifiable hash string (the empty string in particular) it
raises `UnknownHashError` rather than returning `False`. -/
def bcryptVerify (password hash : String) : Except HashError Bool :=
  if hash.data.take 4 = "$2b$".data then .ok (hash == bcryptHash password)
  else .error .unknownHash

/-- `src/main.py` lines 45-46: `verify_password` delegates directly to
`pwd_context.verify(plain_password, hashed_password)`. -/
def verify_password (plain_password hashed_password : String) : Except HashError Bool :=
  bcryptVerify plain_password hashed_password

/-- `src/main.py` lines 49-50: `get_password_hash` delegates to
`pwd_context.hash(password)`. -/
def get_password_hash (password : String) : String :=
  bcryptHash password

/-- The JWT claim set the code produces: a `sub` claim (possibly absent)
and an `exp` claim. -/
structure JWTPayload where
  sub : Option String
  exp : Nat
deriving DecidableEq, Repr

/-- A bearer token as presented on a request: either a structurally
well-formed JWT (payload plus signature string) or an unparseable blob. -/
inductive PresentedToken where
  | jwt (payload : JWTPayload) (sig : String)
  | garbage (raw : String)
deriving DecidableEq, Repr

/-- The HMAC-SHA256 signature over the encoded payload, modelled as an
injective function of the secret and the payload. -/
def signPayload (secret : String) (p : JWTPayload) : String :=
  "HS256#" ++ secret ++ "#" ++ (match p.sub with
    | none => "-"
    | some s => "sub:" ++ s) ++ "#" ++ toString p.exp

/-- python-jose failure taxonomy relevant to `jwt.decode`: all three are
subclasses of `JWTError` and so caught by the `except JWTError` clause. -/
inductive JWTError where
  | malformed
  | badSignature
  | expired
deriving DecidableEq, Repr

/-- `jwt.encode(to_encode, JWT_SECRET, algorithm=ALGORITHM)`. -/
def jwtEncode (secret : String) (p : JWTPayload) : PresentedToken :=
  .jwt p (signPayload secret p)

/-- `jwt.decode(token, JWT_SECRET, algorithms=[ALGORITHM])` at current
time `now`: fails closed on unparseable input, on signature mismatch,
and on an elapsed `exp` claim (jose verifies expiry by default). -/
def jwtDecode (secret : String) (now : Nat) (t : PresentedToken) :
    Except JWTError JWTPayload :=
  match t with
  | .garbage _ => .error .malformed
  | .jwt p sig =>
    if sig = signPayload secret p then
      if p.exp ≤ now then .error .expired else .ok p
    else .error .badSignature

/-- The `data` dict passed to `create_access_token`; at both call sites
it is `{"sub": email}`. -/
structure TokenData where
  sub : Option String
deriving DecidableEq, Repr

/-- `src/main.py` lines 53-58: copy the data, set
`exp = now + (expires_delta or timedelta(minutes=ACCESS_TOKEN_EXPIRE_MINUTES))`,
and sign with the process secret. -/
def create_access_token (secret : String) (now : Nat) (data : TokenData)
    (expires_delta : Option Nat) : PresentedToken :=
  let expire := now + (match expires_delta with
    | some d => d
    | none => ACCESS_TOKEN_EXPIRE_MINUTES)
  jwtEncode secret { sub := data.sub, exp := expire }

/-- The pydantic `Token` response model of `src/main.py` lines 35-37. -/
structure Token where
  access_token : PresentedToken
  token_type : String
deriving DecidableEq, Repr

/-- The pydantic request body `AdminCreate` of `src/main.py` lines 39-42. -/
structure AdminCreate where
  email : String
  password : String
  name : Option String
deriving DecidableEq, Repr

/-- `HTTPException(status_code=..., detail=...)`. -/
structure HTTPError where
  status_code : Nat
  detail : String
deriving DecidableEq, Repr

/-- How a handler terminates abnormally: an `HTTPException` raised by the
handler itself, or an exception escaping the handler uncaught (the
passlib `UnknownHashError`, the pydantic `ValidationError` on `AdminUser(**doc)`,
or a store I/O error), which FastAPI surfaces as a 500. -/
inductive AppError where
  | http (e : HTTPError)
  | unknownHashError
  | validationError
  | storeError (msg : String)
deriving DecidableEq, Repr

/-- `src/main.py` line 62: the single exception value every
authentication-failure path of `get_current_admin` raises. -/
def credentials_exception : HTTPError :=
  { status_code := 401, detail := "Could not validate credentials" }

/-- `AdminUser(**{k: v for k, v in user.items() if k != "_id"})`:
pydantic validation of a stored document with only `_id` removed. The
required field `password_hash` must be present or validation raises. -/
def adminUserOfDoc (d : StoredDoc) : Except AppError AdminUser :=
  match d.password_hash with
  | none => .error .validationError
  | some h => .ok
      { email := d.email, password_hash := h, role := d.role,
        name := d.name, last_login := d.last_login, is_active := d.is_active }

/-- `src/main.py` lines 61-75, `get_current_admin`: decode the token
(any `JWTError` maps to the credentials exception), require a `sub`
claim, look the subject up in the store, and validate the found document
into an `AdminUser` with only `_id` stripped. -/
def get_current_admin (secret : String) (now : Nat) (docs : List StoredDoc)
    (token : PresentedToken) : Except AppError AdminUser :=
  match jwtDecode secret now token with
  | .error _ => .error (.http credentials_exception)
  | .ok payload =>
    match payload.sub with
    | none => .error (.http credentials_exception)
    | some email =>
      match find_one docs email with
      | none => .error (.http credentials_exception)
      | some user => adminUserOfDoc user

/-- Python `x or y` for an `Optional[str]` `x`: both `None` and the empty
string are falsy, so either selects `y`. -/
def truthyOr (x : Option String) (y : String) : String :=
  match x with
  | none => y
  | some s => if s = "" then y else s

/-- `payload.email.split("@")[0]`: the part of the email before the
first `@` (the whole string when there is no `@`). -/
def localPart (email : String) : String :=
  String.mk (email.data.takeWhile fun c => c ≠ '@')

/-- `src/main.py` lines 79-86, `register_admin`: fail 400 when a record
with the email already exists, otherwise hash the password, insert one
new `AdminUser` document (pydantic defaults: `role = "admin"`,
`last_login = None`, `is_active = True`; `name` is the supplied name
`or` the local part of the email), and return a fresh token. The result pairs
the handler outcome with the store after the call. -/
def register_admin (secret : String) (now : Nat) (store : Store)
    (payload : AdminCreate) : Except AppError Token × Store :=
  if (find_one store.docs payload.email).isSome then
    (.error (.http { status_code := 400, detail := "Email already registered" }), store)
  else
    let hashed := get_password_hash payload.password
    let doc : StoredDoc :=
      { email := payload.email, password_hash := some hashed,
        role := "admin", name := some (truthyOr payload.name (localPart payload.email)),
        last_login := none, is_active := true }
    let store2 : Store := { store with docs := store.docs ++ [doc] }
    let token := create_access_token secret now { sub := some payload.email } none
    (.ok { access_token := token, token_type := "bearer" }, store2)

/-- `src/main.py` lines 89-96, `login`: look the username up; when the
document is absent, or the password fails verification against
`user.get("password_hash", "")`, raise 400 "Incorrect email or password"
(an exception from `verify_password` escapes uncaught); otherwise issue
the token, then update `last_login` (an error from `update_one` also
escapes uncaught, there being no try/except), and return the token. The
result pairs the handler outcome with the store after the call. -/
def login (secret : String) (now : Nat) (store : Store)
    (username password : String) : Except AppError Token × Store :=
  match find_one store.docs username with
  | none => (.error (.http { status_code := 400, detail := "Incorrect email or password" }), store)
  | some user =>
    match verify_password password (user.password_hash.getD "") with
    | .error _ => (.error .unknownHashError, store)
    | .ok false => (.error (.http { status_code := 400, detail := "Incorrect email or password" }), store)
    | .ok true =>
      let token := create_access_token secret now { sub := some user.email } none
      match update_one store user.email now with
      | .error e => (.error (.storeError e), store)
      | .ok store2 => (.ok { access_token := token, token_type := "bearer" }, store2)

/-- Email uniqueness across the collection: no two documents share an
email. -/
def uniqueEmails (docs : List StoredDoc) : Prop :=
  (docs.map (fun d => d.email)).Nodup

instance (docs : List StoredDoc) : Decidable (uniqueEmails docs) :=
  inferInstanceAs (Decidable (List.Nodup _))

/-- `n` repetitions of the same login call, each starting from the store
the previous one left behind. -/
def loginIter (secret : String) (now : Nat) (username password : String) :
    Nat → Store → Store
  | 0, s => s
  | n + 1, s => loginIter secret now username password n
      (login secret now s username password).2

/-! ## Concrete fixtures used by witnesses and counterexamples -/

/-- A stored record for a registered administrator `a@x.com`. -/
def aliceDoc : StoredDoc :=
  { email := "a@x.com", password_hash := some (bcryptHash "pw123456"),
    role := "admin", name := some "Alice", last_login := none, is_active := true }

/-- The resolved caller value for `aliceDoc`, hash included. -/
def aliceUser : AdminUser :=
  { email := "a@x.com", password_hash := bcryptHash "pw123456",
    role := "admin", name := some "Alice", last_login := none, is_active := true }

/-- A healthy one-record store. -/
def aliceStore : Store := { docs := [aliceDoc], update_fails := false }

/-- The same store when its backing update operation errors. -/
def aliceStoreFail : Store := { docs := [aliceDoc], update_fails := true }

/-- A stored record whose `password_hash` field is absent. -/
def bobDocNoHash : StoredDoc :=
  { email := "b@x.com", password_hash := none, role := "admin",
    name := none, last_login := none, is_active := true }

/-- A store holding only the hashless record. -/
def bobStore : Store := { docs := [bobDocNoHash], update_fails := false }

/-- An empty store. -/
def emptyStore : Store := { docs := [], update_fails := false }

/-! ## Helper lemmas about the store lookup -/

/-- A document found by `find_one` carries the email it was looked up by. -/
theorem find_one_email {docs : List StoredDoc} {e : String} {d : StoredDoc}
    (h : find_one docs e = some d) : d.email = e := by
  have hp := List.find?_some h
  simpa using hp

/-- When `find_one` misses, no document of the collection has the email. -/
theorem find_one_none {docs : List StoredDoc} {e : String}
    (h : find_one docs e = none) : ∀ d ∈ docs, d.email ≠ e := by
  intro d hd
  have hp := List.find?_eq_none.mp h d hd
  simpa using hp

/-- `set_last_login` never changes the emails of the collection. -/
theorem set_last_login_map_email (docs : List StoredDoc) (e : String) (t : Nat) :
    (set_last_login docs e t).map (fun d => d.email) = docs.map fun d => d.email := by
  induction docs with
  | nil => rfl
  | cons d rest ih =>
    by_cases hd : (d.email == e) = true
    · simp [set_last_login, hd]
    · simp [set_last_login, hd, ih]

/-! ## C1 — the resolved caller and the stored password hash -/

/-- C1 counterexample: a successful `get_current_admin` call on a valid
token for the stored record `aliceDoc` returns a caller value whose
`password_hash` field is present and equal to the stored hash — refuting
the claim that the returned caller never contains the stored
`password_hash` field. -/
theorem get_current_admin_exposes_hash_cex :
    get_current_admin "s" 1 [aliceDoc]
        (create_access_token "s" 0 { sub := some "a@x.com" } none) = .ok aliceUser ∧
    aliceDoc.password_hash = some aliceUser.password_hash := by decide

/-- C1 (amended): a successful `get_current_admin` call returns the
stored identity record with only the internal `_id` key removed; in
particular the `password_hash` field of the returned caller is exactly
the hash stored for that email, never stripped. -/
theorem get_current_admin_retains_hash (secret : String) (now : Nat)
    (docs : List StoredDoc) (token : PresentedToken) (u : AdminUser)
    (h : get_current_admin secret now docs token = .ok u) :
    ∃ d : StoredDoc, find_one docs u.email = some d ∧
      d.password_hash = some u.password_hash := by
  cases hdec : jwtDecode secret now token with
  | error e => simp [get_current_admin, hdec] at h
  | ok p =>
    cases hsub : p.sub with
    | none => simp [get_current_admin, hdec, hsub] at h
    | some email =>
      cases hfind : find_one docs email with
      | none => simp [get_current_admin, hdec, hsub, hfind] at h
      | some d =>
        cases hph : d.password_hash with
        | none =>
          simp [get_current_admin, hdec, hsub, hfind, adminUserOfDoc, hph] at h
        | some hs =>
          simp only [get_current_admin, hdec, hsub, hfind, adminUserOfDoc, hph,
            Except.ok.injEq] at h
          subst h
          have he : d.email = email := find_one_email hfind
          refine ⟨d, ?_, ?_⟩
          · show find_one docs d.email = some d
            rw [he]
            exact hfind
          · show d.password_hash = some hs
            exact hph

/-- C1 witness: the amended statement applied to the concrete store. -/
theorem get_current_admin_retains_hash_witness :
    ∃ d : StoredDoc, find_one [aliceDoc] aliceUser.email = some d ∧
      d.password_hash = some aliceUser.password_hash :=
  get_current_admin_retains_hash "s" 1 [aliceDoc]
    (create_access_token "s" 0 { sub := some "a@x.com" } none) aliceUser (by decide)

/-! ## C2 — login when the last_login update errors -/

/-- C2 counterexample: with correct credentials (the password verifies
against the stored hash) but a store whose update operation errors, the
login call returns the propagated store error, not the issued token —
refuting the claim that an update failure does not fail the login. -/
theorem login_update_failure_cex :
    verify_password "pw123456" (aliceDoc.password_hash.getD "") = .ok true ∧
    (login "s" 7 aliceStoreFail "a@x.com" "pw123456").1 =
      .error (.storeError "store update failed") := by decide

/-- C2 (amended): when credential verification passes but the update of
`last_login` errors, the error propagates out of `login` uncaught (there
is no try/except around `update_one`), so the login fails and no token
is returned. -/
theorem login_fails_when_update_fails (secret : String) (now : Nat)
    (store : Store) (username password : String) (user : StoredDoc)
    (hfind : find_one store.docs username = some user)
    (hverify : verify_password password (user.password_hash.getD "") = .ok true)
    (hfail : store.update_fails = true) :
    (login secret now store username password).1 =
      .error (.storeError "store update failed") := by
  simp only [login, hfind, hverify]
  simp [update_one, hfail]

/-- C2 witness: the amended statement applied to the concrete store. -/
theorem login_fails_when_update_fails_witness :
    (login "s" 9 aliceStoreFail "a@x.com" "pw123456").1 =
      .error (.storeError "store update failed") :=
  login_fails_when_update_fails "s" 9 aliceStoreFail "a@x.com" "pw123456"
    aliceDoc (by decide) (by decide) (by decide)

/-! ## C3 — password verification on a malformed or absent stored hash -/

/-- C3: evaluating the code at the failing input. The login code
anticipates an absent `password_hash` with the fallback
`user.get("password_hash", "")`, yet `verify_password` raises
`UnknownHashError` on the empty string instead of returning `False`, so
a login against a hashless record crashes with an unhandled exception
(surfaced as a 500) instead of failing with the 400 credential error. -/
theorem verify_password_crashes_on_malformed_hash :
    verify_password "pw123456" "" = .error .unknownHash ∧
    bobDocNoHash.password_hash = none ∧
    (login "s" 0 bobStore "b@x.com" "pw123456").1 = .error .unknownHashError := by decide

/-! ## C4 — email uniqueness as a store invariant -/

/-- C4: registration against an already-present email fails with the 400
"Email already registered" error and leaves the store untouched; a
successful registration appends exactly one new record carrying the
requested email; and email uniqueness of the collection is preserved by
both auth operations that can write — `register_admin` and `login`
(`get_current_admin` takes the document list read-only and returns no
store, so it cannot mutate it). -/
theorem register_admin_uniqueness (secret : String) (now : Nat) (store : Store)
    (payload : AdminCreate) (username password : String) :
    ((find_one store.docs payload.email).isSome →
      (register_admin secret now store payload).1 =
        .error (.http { status_code := 400, detail := "Email already registered" }) ∧
      (register_admin secret now store payload).2 = store) ∧
    (find_one store.docs payload.email = none →
      ∃ d : StoredDoc, d.email = payload.email ∧
        (register_admin secret now store payload).2.docs = store.docs ++ [d]) ∧
    (uniqueEmails store.docs →
      uniqueEmails (register_admin secret now store payload).2.docs) ∧
    (uniqueEmails store.docs →
      uniqueEmails (login secret now store username password).2.docs) := by
  refine ⟨?_, ?_, ?_, ?_⟩
  · intro h
    exact ⟨by simp [register_admin, h], by simp [register_admin, h]⟩
  · intro h
    simp only [register_admin, h, Option.isSome_none, Bool.false_eq_true, if_false]
    exact ⟨_, rfl, rfl⟩
  · intro hu
    cases hfo : find_one store.docs payload.email with
    | some d =>
      have hst : (register_admin secret now store payload).2 = store := by
        simp [register_admin, hfo]
      rw [hst]
      exact hu
    | none =>
      simp only [register_admin, hfo, Option.isSome_none, Bool.false_eq_true, if_false]
      unfold uniqueEmails at hu ⊢
      rw [← List.concat_eq_append, List.map_concat]
      refine List.Nodup.concat ?_ hu
      intro hmem
      rcases List.mem_map.mp hmem with ⟨d, hd, he⟩
      exact find_one_none hfo d hd he
  · intro hu
    unfold uniqueEmails at hu ⊢
    cases hfind : find_one store.docs username with
    | none => simp only [login, hfind]; exact hu
    | some user =>
      cases hv : verify_password password (user.password_hash.getD "") with
      | error e => simp only [login, hfind, hv]; exact hu
      | ok b =>
        cases b with
        | false => simp only [login, hfind, hv]; exact hu
        | true =>
          by_cases hf : store.update_fails
          · simp only [login, hfind, hv, update_one, hf, if_true]
            exact hu
          · simp only [login, hfind, hv, update_one, hf, if_false,
              Bool.false_eq_true]
            rw [set_last_login_map_email]
            exact hu

/-- C4 witness: duplicate registration rejected on the concrete store,
and uniqueness preserved through a fresh registration on it. -/
theorem register_admin_uniqueness_witness :
    (register_admin "s" 0 aliceStore
        { email := "a@x.com", password := "q", name := none }).1 =
      .error (.http { status_code := 400, detail := "Email already registered" }) ∧
    uniqueEmails (register_admin "s" 0 aliceStore
        { email := "c@x.com", password := "pw", name := none }).2.docs :=
  ⟨((register_admin_uniqueness "s" 0 aliceStore
      { email := "a@x.com", password := "q", name := none } "u" "p").1 (by decide)).1,
   (register_admin_uniqueness "s" 0 aliceStore
      { email := "c@x.com", password := "pw", name := none } "u" "p").2.2.1 (by decide)⟩

/-! ## C5 — token round-trip with the fixed 8-hour lifetime -/

/-- Decoding an encoded token with the same secret strictly before its
expiry succeeds and returns the full claim set. -/
theorem jwtDecode_encode (secret : String) (t : Nat) (p : JWTPayload)
    (h : t < p.exp) : jwtDecode secret t (jwtEncode secret p) = .ok p := by
  show (if signPayload secret p = signPayload secret p then
      if p.exp ≤ t then Except.error JWTError.expired else Except.ok p
    else Except.error JWTError.badSignature) = Except.ok p
  rw [if_pos rfl, if_neg (by omega)]

/-- C5: for every email, a token issued by `create_access_token` with
the default lifetime carries the expiry `now + 8 * 60` minutes — eight
hours after issuance, the compiled-in constant — and decoding it with
the same secret at any time strictly before that expiry succeeds and
returns the same email as the `sub` claim. -/
theorem token_roundtrip_8h (secret email : String) (now t : Nat)
    (h : t < now + 8 * 60) :
    ACCESS_TOKEN_EXPIRE_MINUTES = 8 * 60 ∧
    create_access_token secret now { sub := some email } none =
      jwtEncode secret { sub := some email, exp := now + 8 * 60 } ∧
    jwtDecode secret t (create_access_token secret now { sub := some email } none) =
      .ok { sub := some email, exp := now + 8 * 60 } := by
  have hexp : ACCESS_TOKEN_EXPIRE_MINUTES = 8 * 60 := by
    norm_num [ACCESS_TOKEN_EXPIRE_MINUTES]
  refine ⟨hexp, rfl, ?_⟩
  show jwtDecode secret t (jwtEncode secret { sub := some email, exp := now + 8 * 60 }) = _
  exact jwtDecode_encode secret t _ (show t < now + 8 * 60 by omega)

/-- C5 witness: the round-trip at a concrete secret, email and time. -/
theorem token_roundtrip_8h_witness :
    ACCESS_TOKEN_EXPIRE_MINUTES = 8 * 60 ∧
    create_access_token "s" 0 { sub := some "e@x.com" } none =
      jwtEncode "s" { sub := some "e@x.com", exp := 0 + 8 * 60 } ∧
    jwtDecode "s" 479 (create_access_token "s" 0 { sub := some "e@x.com" } none) =
      .ok { sub := some "e@x.com", exp := 0 + 8 * 60 } :=
  token_roundtrip_8h "s" "e@x.com" 0 479 (by norm_num)

/-! ## C6 — uniform 401 for every authentication failure cause -/

/-- C6: every internal failure cause of `get_current_admin` — a token
that does not decode (malformed, bad signature, or expired: the three
constructors of `JWTError`), a decoded payload with no `sub` claim, or a
subject with no identity record in the store — produces one identical
external response: status 401 with detail "Could not validate
credentials". -/
theorem get_current_admin_uniform_401 (secret : String) (now : Nat)
    (docs : List StoredDoc) (tok : PresentedToken)
    (h : (∃ e, jwtDecode secret now tok = .error e) ∨
         (∃ p, jwtDecode secret now tok = .ok p ∧ p.sub = none) ∨
         (∃ p email, jwtDecode secret now tok = .ok p ∧ p.sub = some email ∧
            find_one docs email = none)) :
    get_current_admin secret now docs tok =
      .error (.http { status_code := 401, detail := "Could not validate credentials" }) := by
  rcases h with ⟨e, he⟩ | ⟨p, hp, hsub⟩ | ⟨p, email, hp, hsub, hfind⟩
  · simp [get_current_admin, he, credentials_exception]
  · simp [get_current_admin, hp, hsub, credentials_exception]
  · simp [get_current_admin, hp, hsub, hfind, credentials_exception]

/-- C6 witness: all five concrete causes — a malformed blob, a forged
signature, an expired token, a token without a subject claim, and a
valid token for an unknown subject — each map to the same 401. -/
theorem get_current_admin_uniform_401_witness :
    get_current_admin "s" 0 aliceStore.docs (.garbage "not-a-jwt") =
      .error (.http { status_code := 401, detail := "Could not validate credentials" }) ∧
    get_current_admin "s" 0 aliceStore.docs (.jwt { sub := some "a@x.com", exp := 100 } "forged") =
      .error (.http { status_code := 401, detail := "Could not validate credentials" }) ∧
    get_current_admin "s" 10 aliceStore.docs (jwtEncode "s" { sub := some "a@x.com", exp := 5 }) =
      .error (.http { status_code := 401, detail := "Could not validate credentials" }) ∧
    get_current_admin "s" 0 aliceStore.docs (jwtEncode "s" { sub := none, exp := 100 }) =
      .error (.http { status_code := 401, detail := "Could not validate credentials" }) ∧
    get_current_admin "s" 0 aliceStore.docs (jwtEncode "s" { sub := some "ghost@x.com", exp := 100 }) =
      .error (.http { status_code := 401, detail := "Could not validate credentials" }) :=
  ⟨get_current_admin_uniform_401 "s" 0 aliceStore.docs _ (.inl ⟨.malformed, by decide⟩),
   get_current_admin_uniform_401 "s" 0 aliceStore.docs _ (.inl ⟨.badSignature, by decide⟩),
   get_current_admin_uniform_401 "s" 10 aliceStore.docs _ (.inl ⟨.expired, by decide⟩),
   get_current_admin_uniform_401 "s" 0 aliceStore.docs _
     (.inr (.inl ⟨{ sub := none, exp := 100 }, by decide, rfl⟩)),
   get_current_admin_uniform_401 "s" 0 aliceStore.docs _
     (.inr (.inr ⟨{ sub := some "ghost@x.com", exp := 100 }, "ghost@x.com",
        by decide, rfl, by decide⟩))⟩

/-! ## C7 — uniform 400 for every credential mismatch at login -/

/-- C7: both credential-mismatch causes at login — no identity record
for the email, or a record whose stored hash the password fails to
verify against — produce one identical error: status 400 with detail
"Incorrect email or password", so the response does not reveal whether
the email is registered. -/
theorem login_uniform_invalid_credentials (secret : String) (now : Nat)
    (store : Store) (username password : String)
    (h : find_one store.docs username = none ∨
         ∃ user, find_one store.docs username = some user ∧
           verify_password password (user.password_hash.getD "") = .ok false) :
    (login secret now store username password).1 =
      .error (.http { status_code := 400, detail := "Incorrect email or password" }) := by
  rcases h with h | ⟨user, hfind, hv⟩
  · simp [login, h]
  · simp [login, hfind, hv]

/-- C7 witness: an unregistered email and a wrong password against the
same concrete store yield the identical 400 response. -/
theorem login_uniform_invalid_credentials_witness :
    (login "s" 0 aliceStore "nobody@x.com" "pw123456").1 =
      .error (.http { status_code := 400, detail := "Incorrect email or password" }) ∧
    (login "s" 0 aliceStore "a@x.com" "wrong-password").1 =
      .error (.http { status_code := 400, detail := "Incorrect email or password" }) :=
  ⟨login_uniform_invalid_credentials "s" 0 aliceStore "nobody@x.com" "pw123456"
     (.inl (by decide)),
   login_uniform_invalid_credentials "s" 0 aliceStore "a@x.com" "wrong-password"
     (.inr ⟨aliceDoc, by decide, by decide⟩)⟩

/-! ## C8 — a failed login never mutates the store -/

/-- C8: a login that fails with the 400 "Incorrect email or password"
error leaves the identity store exactly as it was — no record created,
no field of any record mutated — and iterating the same failed login any
number of times still leaves the store unchanged. -/
theorem login_failure_frame (secret : String) (now : Nat) (store : Store)
    (username password : String)
    (h : (login secret now store username password).1 =
      .error (.http { status_code := 400, detail := "Incorrect email or password" })) :
    (login secret now store username password).2 = store ∧
    ∀ n : Nat, loginIter secret now username password n store = store := by
  have hsnd : (login secret now store username password).2 = store := by
    cases hfind : find_one store.docs username with
    | none => simp [login, hfind]
    | some user =>
      cases hv : verify_password password (user.password_hash.getD "") with
      | error e => simp [login, hfind, hv]
      | ok b =>
        cases b with
        | false => simp [login, hfind, hv]
        | true =>
          exfalso
          cases hu : update_one store user.email now with
          | error e => simp [login, hfind, hv, hu] at h
          | ok s2 => simp [login, hfind, hv, hu] at h
  refine ⟨hsnd, ?_⟩
  intro n
  induction n with
  | zero => rfl
  | succ k ih =>
    show loginIter secret now username password k
      (login secret now store username password).2 = store
    rw [hsnd]
    exact ih

/-- C8 witness: three repetitions of a failed login against the concrete
store leave it untouched. -/
theorem login_failure_frame_witness :
    (login "s" 0 aliceStore "a@x.com" "wrong-password").2 = aliceStore ∧
    loginIter "s" 0 "a@x.com" "wrong-password" 3 aliceStore = aliceStore :=
  ⟨(login_failure_frame "s" 0 aliceStore "a@x.com" "wrong-password" (by decide)).1,
   (login_failure_frame "s" 0 aliceStore "a@x.com" "wrong-password" (by decide)).2 3⟩

/-! ## C9 — the shape of a freshly registered identity record -/

/-- C9: a successful registration appends one record whose role is the
fixed default "admin", whose is_active flag is true, whose last_login is
absent, whose password_hash is the hash of the supplied password, and
whose display name is the supplied name when a non-empty one was given
and otherwise the local part of the email (the substring before the
first at-sign). -/
theorem register_success_fields (secret : String) (now : Nat) (store : Store)
    (payload : AdminCreate) (h : find_one store.docs payload.email = none) :
    ∃ d : StoredDoc,
      (register_admin secret now store payload).2.docs = store.docs ++ [d] ∧
      d.email = payload.email ∧
      d.role = "admin" ∧
      d.is_active = true ∧
      d.last_login = none ∧
      d.password_hash = some (get_password_hash payload.password) ∧
      (∀ s : String, payload.name = some s → s ≠ "" → d.name = some s) ∧
      (payload.name = none → d.name = some (localPart payload.email)) := by
  simp only [register_admin, h, Option.isSome_none, Bool.false_eq_true, if_false]
  refine ⟨_, rfl, rfl, rfl, rfl, rfl, rfl, ?_, ?_⟩
  · intro s hs hne
    show some (truthyOr payload.name (localPart payload.email)) = some s
    rw [hs, truthyOr, if_neg hne]
  · intro hn
    show some (truthyOr payload.name (localPart payload.email)) = some (localPart payload.email)
    rw [hn, truthyOr]

/-- C9 witness: the record registered for `alice@x.com` with the display
name "Alice" has all the claimed field values. -/
theorem register_success_fields_witness :
    ∃ d : StoredDoc,
      (register_admin "s" 0 emptyStore
        { email := "alice@x.com", password := "pw123456", name := some "Alice" }).2.docs =
        emptyStore.docs ++ [d] ∧
      d.email = "alice@x.com" ∧
      d.role = "admin" ∧
      d.is_active = true ∧
      d.last_login = none ∧
      d.password_hash = some (get_password_hash "pw123456") ∧
      (∀ s : String, some "Alice" = some s → s ≠ "" → d.name = some s) ∧
      (some "Alice" = (none : Option String) → d.name = some (localPart "alice@x.com")) :=
  register_success_fields "s" 0 emptyStore
    { email := "alice@x.com", password := "pw123456", name := some "Alice" } (by decide)

/-! ## C10 — an explicit empty-string name defaults like an absent one -/

/-- C10: because the defaulting expression tests Python truthiness (both
`None` and the empty string are falsy), registering with the explicit
name `""` behaves exactly like registering with no name at all: the
stored display name is the local part of the email, not the empty
string. -/
theorem register_empty_name_defaults (secret : String) (now : Nat) (store : Store)
    (email password : String) (h : find_one store.docs email = none) :
    register_admin secret now store { email := email, password := password, name := some "" } =
      register_admin secret now store { email := email, password := password, name := none } ∧
    ∃ d : StoredDoc,
      (register_admin secret now store
        { email := email, password := password, name := some "" }).2.docs =
        store.docs ++ [d] ∧
      d.name = some (localPart email) := by
  constructor
  · simp [register_admin, truthyOr]
  · simp only [register_admin, h, Option.isSome_none, Bool.false_eq_true, if_false]
    refine ⟨_, rfl, ?_⟩
    show some (truthyOr (some "") (localPart email)) = some (localPart email)
    rw [truthyOr, if_pos rfl]

/-- C10 witness: registering `bob@x.com` with the explicit name `""`
stores the display name "bob" — the local part — and coincides with the
nameless registration. -/
theorem register_empty_name_defaults_witness :
    register_admin "s" 0 emptyStore
        { email := "bob@x.com", password := "pw123456", name := some "" } =
      register_admin "s" 0 emptyStore
        { email := "bob@x.com", password := "pw123456", name := none } ∧
    ∃ d : StoredDoc,
      (register_admin "s" 0 emptyStore
        { email := "bob@x.com", password := "pw123456", name := some "" }).2.docs =
        emptyStore.docs ++ [d] ∧
      d.name = some (localPart "bob@x.com") :=
  register_empty_name_defaults "s" 0 emptyStore "bob@x.com" "pw123456" (by decide)

end CMSAuth
